import Mathlib

/-!
# The-Forge "triangle" sample: frame pump, resize path and teardown

Shallow embedding of `src/getting-started/triangle/triangle.cpp`.

* Calls into the GPU abstraction (The-Forge) and into the UI overlay are external.
  They are embedded as constructors of `Call`; every member function returns the
  list of calls it issues, in program order, next to the new object state.
* Handles held in the per-slot arrays (`mRenderCompleteFences[i]`, `mCmds[i]`, ...)
  are represented by their slot index `i`; colour target `ppRenderTargets[i]` of the
  swapchain by its image index `i`.
* `float` values are represented by exact rationals.
* Matrices produced by glm are kept as terms (`Mat4`) built from the glm calls of the
  source; `Mat4.eval` interprets them in any monoid of matrices.
* Descriptor fields that carry neither a handle, a size nor a flag read by the sample
  (formats, clear values, window handles) are left out of the call arguments.
-/

namespace TheForgeSamples

/-! ## glm values -/

/-- Value of a `glm::vec3`. -/
structure Vec3 where
  x : ℚ
  y : ℚ
  z : ℚ
  deriving DecidableEq, Repr

/-- Angle argument of `glm::rotate`. The source always passes
`t * glm::radians(180.0f)`; the angle is kept as the exact coefficient `t`
of `glm::radians(180.0f)`, that is of pi. -/
structure Angle where
  halfTurns : ℚ
  deriving DecidableEq, Repr

/-- Terms for `glm::mat4` values, one constructor per glm call made by the sample. -/
inductive Mat4 where
  | identity : Mat4
  | perspective (fovy aspect zNear zFar : ℚ) : Mat4
  | lookAt (eye center up : Vec3) : Mat4
  | rotate (m : Mat4) (angle : Angle) (axis : Vec3) : Mat4
  | mul (a b : Mat4) : Mat4
  deriving DecidableEq, Repr

/-- Interpretation of the glm primitives in a monoid `M` of matrices:
`rotation t v` is the rotation matrix by `t * pi` about `v`. -/
structure GlmSem (M : Type) where
  rotation : ℚ → Vec3 → M
  perspective : ℚ → ℚ → ℚ → ℚ → M
  lookAt : Vec3 → Vec3 → Vec3 → M

/-- Value of a matrix term. `glm::mat4(1.0f)` is the identity and
`glm::rotate(m, a, v)` is `m` times the rotation matrix of `a` about `v`. -/
def Mat4.eval {M : Type} [Monoid M] (sem : GlmSem M) : Mat4 → M
  | .identity => 1
  | .perspective f a n r => sem.perspective f a n r
  | .lookAt e c u => sem.lookAt e c u
  | .rotate m a v => Mat4.eval sem m * sem.rotation a.halfTurns v
  | .mul a b => Mat4.eval sem a * Mat4.eval sem b

/-- Model matrix in the words of the specification: the rotation about Z by
`a * pi` composed with the rotation about X by `a * pi`. -/
def specModel {M : Type} [Monoid M] (sem : GlmSem M) (a : ℚ) : M :=
  sem.rotation a ⟨0, 0, 1⟩ * sem.rotation a ⟨1, 0, 0⟩

/-! ## GPU abstraction: handles, descriptors, calls -/

/-- Semaphores owned by the sample: `mImageAcquiredSemaphore` and
`mRenderCompleteSemaphores[slot]`. -/
inductive Semaphore where
  | imageAcquired : Semaphore
  | renderComplete (slot : Nat) : Semaphore
  deriving DecidableEq, Repr

/-- Values of `FenceStatus` reported by `getFenceStatus`. -/
inductive FenceStatus where
  | complete
  | incomplete
  | notSubmitted
  deriving DecidableEq, Repr

/-- Resource states used by the sample. -/
inductive ResourceState where
  | present
  | renderTarget
  deriving DecidableEq, Repr

/-- Load actions used by the sample. -/
inductive LoadActionType where
  | dontCare
  | load
  | clear
  deriving DecidableEq, Repr

/-- The two load actions of `mLoadActions` that the sample writes. -/
structure LoadActionsDesc where
  mLoadActionsColor0 : LoadActionType
  mLoadActionDepth : LoadActionType
  deriving DecidableEq, Repr

/-- One entry of the `RenderTargetBarrier` array: colour target `target`
of the swapchain, its current state and its new state. -/
structure RenderTargetBarrier where
  target : Nat
  currentState : ResourceState
  newState : ResourceState
  deriving DecidableEq, Repr

/-- The swapchain object behind `mSwapChain`. Its colour targets have the
width and height of the description it was created from. -/
structure SwapChain where
  mWidth : Int
  mHeight : Int
  mImageCount : Nat
  mEnableVsync : Bool
  deriving DecidableEq, Repr

/-- The depth target behind `mDepthBuffer`. -/
structure DepthBuffer where
  mWidth : Int
  mHeight : Int
  deriving DecidableEq, Repr

/-- Fields of `QueueSubmitDesc` filled by the sample; each list has the length
of the matching count field. -/
structure QueueSubmitDesc where
  cmds : List Nat
  signalSemaphores : List Semaphore
  waitSemaphores : List Semaphore
  signalFence : Option Nat
  deriving DecidableEq, Repr

/-- Fields of `QueuePresentDesc` filled by the sample. -/
structure QueuePresentDesc where
  mIndex : Nat
  waitSemaphores : List Semaphore
  mSubmitDone : Bool
  deriving DecidableEq, Repr

/-- Resources loaded through `addResource` and released through `removeResource`. -/
inductive LoadedResource where
  | vertexBuffer
  | indexBuffer
  | texture
  deriving DecidableEq, Repr

/-- Button identifiers of the overlay's `InputBindings` that matter here: the four
face buttons of a game controller. -/
inductive InputBinding where
  | BUTTON_SOUTH
  | BUTTON_EAST
  | BUTTON_WEST
  | BUTTON_NORTH
  deriving DecidableEq, Repr

/-- Calls issued by the sample to the GPU abstraction and to the UI overlay. -/
inductive Call where
  | uiInit
  | uiLoadFont
  | uiAddGuiComponent
  | uiLoad
  | uiUnload
  | uiExit
  | uiUpdate (deltaTime : ℚ)
  | uiGui
  | uiDraw (cmd : Nat)
  | uiOnButton (button : InputBinding) (pressed : Bool) (mousePosition : ℚ × ℚ)
  | waitQueueIdle
  | acquireNextImage (signalSemaphore : Semaphore)
  | getFenceStatus (fence : Nat)
  | waitForFences (fences : List Nat)
  | resetCmdPool (pool : Nat)
  | beginCmd (cmd : Nat)
  | endCmd (cmd : Nat)
  | cmdResourceBarrier (cmd : Nat) (rtBarriers : List RenderTargetBarrier)
  | cmdBindRenderTargets (cmd : Nat) (targets : List Nat) (depth : Option DepthBuffer)
      (loadActions : Option LoadActionsDesc)
  | cmdSetViewport (cmd : Nat) (x y width height minDepth maxDepth : ℚ)
  | cmdSetScissor (cmd : Nat) (x y width height : Int)
  | cmdBindDescriptorSet (cmd : Nat) (index : Nat)
  | cmdBindPipeline (cmd : Nat)
  | cmdBindIndexBuffer (cmd : Nat) (offset : Nat)
  | cmdBindVertexBuffer (cmd : Nat) (bufferCount : Nat)
  | cmdBindPushConstants (cmd : Nat) (name : String) (constants : Mat4)
  | cmdDrawIndexed (cmd : Nat) (indexCount firstIndex firstVertex : Nat)
  | queueSubmit (desc : QueueSubmitDesc)
  | queuePresent (desc : QueuePresentDesc)
  | toggleVSync
  | addSwapChain (width height : Int) (imageCount : Nat) (enableVsync : Bool)
  | addRenderTarget (width height : Int)
  | removeSwapChain
  | removeRenderTarget
  | initRenderer
  | removeRenderer
  | initResourceLoaderInterface
  | exitResourceLoaderInterface
  | addQueue
  | removeQueue
  | addFence (slot : Nat)
  | removeFence (slot : Nat)
  | addSemaphore (sem : Semaphore)
  | removeSemaphore (sem : Semaphore)
  | addCmdPool (slot : Nat)
  | removeCmdPool (slot : Nat)
  | addCmd (slot : Nat)
  | removeCmd (slot : Nat)
  | addResource (res : LoadedResource)
  | removeResource (res : LoadedResource)
  | addSampler
  | removeSampler
  | addShader
  | removeShader
  | addRootSignature
  | removeRootSignature
  | waitForAllResourceLoads
  | addDescriptorSet
  | updateDescriptorSet
  | removeDescriptorSet
  | addPipeline
  | removePipeline
  deriving Repr

/-! ## Object state -/

/-- Data members of `Triangle` read or written by the embedded member functions.
`mRenderer` records whether the renderer pointer is non-null. -/
structure Triangle where
  mRenderer : Bool
  mFbWidth : Int
  mFbHeight : Int
  mSwapChain : Option SwapChain
  mDepthBuffer : Option DepthBuffer
  mLoadActions : LoadActionsDesc
  mFrameIndex : Nat
  mIndexCount : Nat
  mRotation : ℚ
  mRotationSpeed : ℚ
  mVSyncEnabled : Bool
  mMousePosition : ℚ × ℚ
  mModelMatrix : Mat4
  mViewMatrix : Mat4
  mProjMatrix : Mat4
  deriving DecidableEq, Repr

/-- What the environment answers during one call of `onRender`.

The two widgets hold pointers to `mVSyncEnabled` and `mRotationSpeed`, so the
overlay may write both fields inside `mAppUI.Update` and inside `mAppUI.Gui`;
the input gives the values the fields hold when each of these calls returns.
`swapchainImageIndex` is the only value `acquireNextImage` hands back. -/
structure FrameInput where
  timerMSec : ℚ
  windowFocused : Bool
  cursorPos : ℚ × ℚ
  checkboxAfterUpdate : Bool
  sliderAfterUpdate : ℚ
  swapchainImageIndex : Nat
  fenceStatus : FenceStatus
  checkboxAfterGui : Bool
  sliderAfterGui : ℚ
  deriving DecidableEq, Repr

/-- Outcome of the three fallible calls of `createSwapchainResources`:
whether `mSwapChain` and `mDepthBuffer` are non-null after their creation call,
and the result of `mAppUI.Load`. -/
structure CreateOutcome where
  swapChainCreated : Bool
  depthBufferCreated : Bool
  uiLoaded : Bool
  deriving DecidableEq, Repr

/-- What the environment answers during `init`: the results of `MemAllocInit` and
`initFileSystem`, the framebuffer size reported by GLFW, whether `initRenderer`
leaves `mRenderer` non-null, the result of `mAppUI.Init`, and the outcome of
`createSwapchainResources`. -/
structure InitOutcome where
  memAllocOk : Bool
  fileSystemOk : Bool
  fbWidth : Int
  fbHeight : Int
  rendererCreated : Bool
  uiInitOk : Bool
  create : CreateOutcome
  deriving DecidableEq, Repr

/-! ## Member functions -/

/-- Effect of `toggleVSync` on the swapchain: the vsync setting is inverted,
the other parameters are kept. -/
def toggleVSync (sc : SwapChain) : SwapChain :=
  { sc with mEnableVsync := !sc.mEnableVsync }

/-- Commands recorded by `onRender` into command buffer `cmd` between `beginCmd`
and `endCmd` (triangle.cpp lines 514-552), with `mAppUI.Gui` at its place. -/
def recordFrame (cmd image : Nat) (sc : SwapChain) (s : Triangle)
    (worldViewProj : Mat4) : List Call :=
  [ Call.cmdResourceBarrier cmd [⟨image, ResourceState.present, ResourceState.renderTarget⟩],
    Call.cmdBindRenderTargets cmd [image] s.mDepthBuffer
      (some ⟨LoadActionType.clear, LoadActionType.clear⟩),
    Call.cmdSetViewport cmd 0 0 sc.mWidth sc.mHeight 0 1,
    Call.cmdSetScissor cmd 0 0 sc.mWidth sc.mHeight,
    Call.cmdBindDescriptorSet cmd 0,
    Call.cmdBindPipeline cmd,
    Call.cmdBindIndexBuffer cmd 0,
    Call.cmdBindVertexBuffer cmd 1,
    Call.cmdBindPushConstants cmd "UniformBlockRootConstant" worldViewProj,
    Call.cmdDrawIndexed cmd s.mIndexCount 0 0,
    Call.cmdBindRenderTargets cmd [image] none
      (some ⟨LoadActionType.load, LoadActionType.dontCare⟩),
    Call.uiGui,
    Call.uiDraw cmd,
    Call.cmdBindRenderTargets cmd [] none none,
    Call.cmdResourceBarrier cmd [⟨image, ResourceState.renderTarget, ResourceState.present⟩] ]

/-- The two assignments to `mModelMatrix` in `onRender` (triangle.cpp lines
487-488): a rotation of the identity about Z, then a rotation of the result
about X, both by `mRotation * glm::radians(180.0f)`. -/
def modelMatrix (rotation : ℚ) : Mat4 :=
  Mat4.rotate (Mat4.rotate Mat4.identity ⟨rotation⟩ ⟨0, 0, 1⟩) ⟨rotation⟩ ⟨1, 0, 0⟩

/-- Body of `Triangle::onRender` up to and including the vsync check
(triangle.cpp lines 467-582). The result is `none` when `mSwapChain` is null,
which the function dereferences. -/
def renderFrame (inp : FrameInput) (s : Triangle) : Option (Triangle × List Call) :=
  let deltaTime : ℚ := inp.timerMSec / 1000
  let mousePosition : ℚ × ℚ := if inp.windowFocused then inp.cursorPos else (-1, -1)
  let rotation : ℚ := s.mRotation + deltaTime * inp.sliderAfterUpdate
  let model : Mat4 := modelMatrix rotation
  let worldViewProj : Mat4 := Mat4.mul (Mat4.mul s.mProjMatrix s.mViewMatrix) model
  match s.mSwapChain with
  | none => none
  | some sc =>
    let image := inp.swapchainImageIndex
    let slot := s.mFrameIndex
    let pacing : List Call :=
      Call.getFenceStatus slot ::
        (if inp.fenceStatus = FenceStatus.incomplete then [Call.waitForFences [slot]] else [])
    let submitDesc : QueueSubmitDesc :=
      { cmds := [slot],
        signalSemaphores := [Semaphore.renderComplete slot],
        waitSemaphores := [Semaphore.imageAcquired],
        signalFence := some slot }
    let presentDesc : QueuePresentDesc :=
      { mIndex := image,
        waitSemaphores := [Semaphore.renderComplete slot],
        mSubmitDone := true }
    let mismatch : Bool := sc.mEnableVsync != inp.checkboxAfterGui
    let reconcile : List Call :=
      if mismatch then [Call.waitQueueIdle, Call.toggleVSync] else []
    let calls : List Call :=
      [Call.uiUpdate deltaTime, Call.acquireNextImage Semaphore.imageAcquired]
        ++ pacing
        ++ [Call.resetCmdPool slot, Call.beginCmd slot]
        ++ recordFrame slot image sc s worldViewProj
        ++ [Call.endCmd slot, Call.queueSubmit submitDesc, Call.queuePresent presentDesc]
        ++ reconcile
    some
      ({ s with
          mMousePosition := mousePosition,
          mRotation := rotation,
          mModelMatrix := model,
          mLoadActions := ⟨LoadActionType.load, LoadActionType.dontCare⟩,
          mRotationSpeed := inp.sliderAfterGui,
          mVSyncEnabled := inp.checkboxAfterGui,
          mSwapChain := some (if mismatch then toggleVSync sc else sc) },
       calls)

/-- Embedding of `Triangle::onRender`: the body, then the last statement
`mFrameIndex = (mFrameIndex + 1) % gImageCount` (triangle.cpp line 584). -/
def onRender (gImageCount : Nat) (inp : FrameInput) (s : Triangle) :
    Option (Triangle × List Call) :=
  (renderFrame inp s).map fun r =>
    ({ r.1 with mFrameIndex := (r.1.mFrameIndex + 1) % gImageCount }, r.2)

/-- Embedding of `Triangle::createSwapchainResources`: result flag, new state and
calls. A swapchain that `addSwapChain` leaves non-null has the description's
width, height, image count and vsync setting (`mEnableVsync = true`); after the
early `return false` the depth target pointer is left as it was. -/
def createSwapchainResources (gImageCount : Nat) (out : CreateOutcome) (s : Triangle) :
    Bool × Triangle × List Call :=
  let addSc := Call.addSwapChain s.mFbWidth s.mFbHeight gImageCount true
  if out.swapChainCreated then
    let sc : SwapChain :=
      { mWidth := s.mFbWidth, mHeight := s.mFbHeight, mImageCount := gImageCount,
        mEnableVsync := true }
    let addRt := Call.addRenderTarget s.mFbWidth s.mFbHeight
    if out.depthBufferCreated then
      (out.uiLoaded,
        { s with mSwapChain := some sc, mDepthBuffer := some ⟨s.mFbWidth, s.mFbHeight⟩ },
        [addSc, addRt, Call.uiLoad])
    else
      (false, { s with mSwapChain := some sc, mDepthBuffer := none }, [addSc, addRt])
  else
    (false, { s with mSwapChain := none }, [addSc])

/-- Embedding of `Triangle::onSize`: new state and calls. The result of
`createSwapchainResources` is dropped, as in the source. -/
def onSize (gImageCount : Nat) (out : CreateOutcome) (width height : Int) (s : Triangle) :
    Triangle × List Call :=
  if width = s.mFbWidth ∧ height = s.mFbHeight then (s, [])
  else
    let s1 : Triangle := { s with mFbWidth := width, mFbHeight := height }
    let r := createSwapchainResources gImageCount out s1
    let aspect : ℚ := (s1.mFbWidth : ℚ) / (s1.mFbHeight : ℚ)
    ({ r.2.1 with mProjMatrix := Mat4.perspective 45 aspect (1 / 10) 100 },
      [Call.waitQueueIdle, Call.removeSwapChain, Call.removeRenderTarget, Call.uiUnload]
        ++ r.2.2)

/-- Calls of a loop `for (i = 0; i < n; ++i)` whose iteration `i` issues `body i`. -/
def forSlots {α : Type} (body : Nat → List α) : Nat → List α
  | 0 => []
  | n + 1 => forSlots body n ++ body n

/-- Embedding of `Triangle::init`: result flag, new state and the calls issued to
the renderer and to the overlay (allocator, file system and log set-up issue
none). The widgets added to the gui component are folded into
`uiAddGuiComponent`. -/
def init (gImageCount : Nat) (env : InitOutcome) (s : Triangle) :
    Bool × Triangle × List Call :=
  if !env.memAllocOk then (false, s, [])
  else if !env.fileSystemOk then (false, s, [])
  else
    let s1 : Triangle := { s with mFbWidth := env.fbWidth, mFbHeight := env.fbHeight }
    if !env.rendererCreated then (false, { s1 with mRenderer := false }, [Call.initRenderer])
    else
      let s2 : Triangle := { s1 with mRenderer := true }
      let c1 : List Call :=
        [Call.initRenderer, Call.initResourceLoaderInterface, Call.addQueue]
          ++ forSlots (fun i =>
              [Call.addFence i, Call.addSemaphore (Semaphore.renderComplete i),
                Call.addCmdPool i, Call.addCmd i]) gImageCount
          ++ [Call.addSemaphore Semaphore.imageAcquired, Call.uiInit]
      if !env.uiInitOk then (false, s2, c1)
      else
        let s3 : Triangle :=
          { s2 with mLoadActions := ⟨LoadActionType.clear, LoadActionType.clear⟩ }
        let r := createSwapchainResources gImageCount env.create s3
        let c2 : List Call := c1 ++ [Call.uiLoadFont] ++ r.2.2
        if !r.1 then (false, r.2.1, c2)
        else
          let c3 : List Call :=
            c2 ++
              [Call.addResource LoadedResource.vertexBuffer,
                Call.addResource LoadedResource.indexBuffer,
                Call.addResource LoadedResource.texture,
                Call.addSampler, Call.addShader, Call.addRootSignature,
                Call.waitForAllResourceLoads,
                Call.addDescriptorSet, Call.updateDescriptorSet,
                Call.addPipeline, Call.uiAddGuiComponent]
          let aspect : ℚ := (r.2.1.mFbWidth : ℚ) / (r.2.1.mFbHeight : ℚ)
          (true,
            { r.2.1 with
                mIndexCount := 36,
                mProjMatrix := Mat4.perspective 45 aspect (1 / 10) 100,
                mViewMatrix := Mat4.lookAt ⟨0, 0, -5⟩ ⟨0, 0, 0⟩ ⟨0, 1, 0⟩ },
            c3)

/-- Embedding of `Triangle::~Triangle`: the calls issued to the renderer and to
the overlay (log, file system and allocator shutdown issue none). -/
def destructor (gImageCount : Nat) (s : Triangle) : List Call :=
  if s.mRenderer then
    [Call.waitQueueIdle, Call.uiUnload, Call.uiExit,
      Call.removeResource LoadedResource.texture,
      Call.removeResource LoadedResource.vertexBuffer,
      Call.removeResource LoadedResource.indexBuffer,
      Call.removeShader, Call.removeRootSignature, Call.removeDescriptorSet,
      Call.removePipeline, Call.removeSampler, Call.removeSwapChain,
      Call.removeRenderTarget]
      ++ forSlots (fun i =>
          [Call.removeFence i, Call.removeSemaphore (Semaphore.renderComplete i),
            Call.removeCmd i, Call.removeCmdPool i]) gImageCount
      ++ [Call.removeSemaphore Semaphore.imageAcquired, Call.removeQueue,
          Call.exitResourceLoaderInterface, Call.removeRenderer]
  else []

/-- Value of the GLFW constant `GLFW_MOUSE_BUTTON_1`, the left mouse button. -/
def GLFW_MOUSE_BUTTON_1 : Int := 0

/-- Value of the GLFW constant `GLFW_PRESS`. -/
def GLFW_PRESS : Int := 1

/-- Embedding of `Triangle::onMouseButton`: new state and calls. The function
assigns no data member; the overlay is handed `mMousePosition` as stored. -/
def onMouseButton (button action : Int) (s : Triangle) : Triangle × List Call :=
  if button ≠ GLFW_MOUSE_BUTTON_1 then (s, [])
  else
    let buttonPressed : Bool := if action = GLFW_PRESS then true else false
    (s, [Call.uiOnButton InputBinding.BUTTON_SOUTH buttonPressed s.mMousePosition])

/-- Embedding of `mouseButtonCallback` of main.cpp: the button and the action are
forwarded to `onMouseButton`, the modifier bits are dropped. -/
def mouseButtonCallback (button action _mods : Int) (s : Triangle) :
    Triangle × List Call :=
  onMouseButton button action s

/-! ## Observations on call streams -/

/-- Recognises `beginCmd`. -/
def Call.isBeginCmd : Call → Bool
  | .beginCmd _ => true
  | _ => false

/-- Recognises `endCmd`. -/
def Call.isEndCmd : Call → Bool
  | .endCmd _ => true
  | _ => false

/-- Calls that record a command into a command buffer: the `cmd*` functions and
the overlay's `Draw(pCmd)`. -/
def Call.isRecorded : Call → Bool
  | .cmdResourceBarrier _ _ => true
  | .cmdBindRenderTargets _ _ _ _ => true
  | .cmdSetViewport _ _ _ _ _ _ _ => true
  | .cmdSetScissor _ _ _ _ _ => true
  | .cmdBindDescriptorSet _ _ => true
  | .cmdBindPipeline _ => true
  | .cmdBindIndexBuffer _ _ => true
  | .cmdBindVertexBuffer _ _ => true
  | .cmdBindPushConstants _ _ _ => true
  | .cmdDrawIndexed _ _ _ _ => true
  | .uiDraw _ => true
  | _ => false

/-- Recognises `cmdResourceBarrier`. -/
def Call.isResourceBarrier : Call → Bool
  | .cmdResourceBarrier _ _ => true
  | _ => false

/-- Recognises `cmdBindRenderTargets`. -/
def Call.isBindRenderTargets : Call → Bool
  | .cmdBindRenderTargets _ _ _ _ => true
  | _ => false

/-- Recognises `cmdDrawIndexed`. -/
def Call.isDrawIndexed : Call → Bool
  | .cmdDrawIndexed _ _ _ _ => true
  | _ => false

/-- Recognises the overlay's `Draw`. -/
def Call.isUiDraw : Call → Bool
  | .uiDraw _ => true
  | _ => false

/-- Commands recorded between the first `beginCmd` and the next `endCmd` of a
call stream. -/
def recordedCommands (calls : List Call) : List Call :=
  (((calls.dropWhile fun c => !c.isBeginCmd).drop 1).takeWhile fun c => !c.isEndCmd).filter
    Call.isRecorded

/-- Semaphore handed to `acquireNextImage`, for that call only. -/
def Call.acquireSignal : Call → Option Semaphore
  | .acquireNextImage sem => some sem
  | _ => none

/-- Descriptor of a `queueSubmit` call. -/
def Call.submitDesc : Call → Option QueueSubmitDesc
  | .queueSubmit d => some d
  | _ => none

/-- Descriptor of a `queuePresent` call. -/
def Call.presentDesc : Call → Option QueuePresentDesc
  | .queuePresent d => some d
  | _ => none

/-- Barrier symmetry of one call stream, for command buffer `cmd` and colour
target `image`: the stream holds two resource barriers in all, both recorded
between `beginCmd` and `endCmd`; the recorded commands start with the barrier
present -> render-target on `image`, end with the barrier render-target -> present
on `image`, and the commands `mid` in between hold no barrier and hold every
render-target bind, the indexed draw and the overlay draw. -/
def BarriersBracketDraws (cmd image : Nat) (calls : List Call) : Prop :=
  ∃ mid : List Call,
    recordedCommands calls =
      Call.cmdResourceBarrier cmd [⟨image, ResourceState.present, ResourceState.renderTarget⟩] ::
        (mid ++
          [Call.cmdResourceBarrier cmd
            [⟨image, ResourceState.renderTarget, ResourceState.present⟩]]) ∧
    (calls.filter Call.isResourceBarrier).length = 2 ∧
    ((recordedCommands calls).filter Call.isResourceBarrier).length = 2 ∧
    (∀ c ∈ mid, c.isResourceBarrier = false) ∧
    (mid.filter Call.isBindRenderTargets).length =
      (calls.filter Call.isBindRenderTargets).length ∧
    (mid.filter Call.isDrawIndexed).length = (calls.filter Call.isDrawIndexed).length ∧
    (mid.filter Call.isUiDraw).length = (calls.filter Call.isUiDraw).length ∧
    (mid.filter Call.isBindRenderTargets).length = 3 ∧
    (mid.filter Call.isDrawIndexed).length = 1 ∧
    (mid.filter Call.isUiDraw).length = 1

/-- Semaphore wiring of one call stream, for frame slot `slot` and image index
`image`: one acquire, one submit and one present; the submit waits on exactly the
semaphore handed to the acquire, which is the image-acquired semaphore, and
signals exactly the render-complete semaphore of `slot`; the present waits on
exactly that semaphore and presents `image`. -/
def SemaphoreWiring (slot image : Nat) (calls : List Call) : Prop :=
  ∃ (a : Semaphore) (d : QueueSubmitDesc) (p : QueuePresentDesc),
    calls.filterMap Call.acquireSignal = [a] ∧
    calls.filterMap Call.submitDesc = [d] ∧
    calls.filterMap Call.presentDesc = [p] ∧
    a = Semaphore.imageAcquired ∧
    d.waitSemaphores = [a] ∧
    d.signalSemaphores = [Semaphore.renderComplete slot] ∧
    p.waitSemaphores = [Semaphore.renderComplete slot] ∧
    p.mIndex = image

/-- Fence handed to `getFenceStatus`, for that call only. -/
def Call.fenceQueried : Call → Option Nat
  | .getFenceStatus f => some f
  | _ => none

/-- Command pool handed to `resetCmdPool`, for that call only. -/
def Call.poolReset : Call → Option Nat
  | .resetCmdPool p => some p
  | _ => none

/-- Command buffer handed to `beginCmd`, for that call only. -/
def Call.cmdBegun : Call → Option Nat
  | .beginCmd c => some c
  | _ => none

/-- All fences handed to `waitForFences` in a call stream. -/
def fencesWaited : List Call → List Nat
  | [] => []
  | .waitForFences fs :: cs => fs ++ fencesWaited cs
  | _ :: cs => fencesWaited cs

/-- Signal fences of the submits of a call stream. -/
def signalFences (calls : List Call) : List (Option Nat) :=
  (calls.filterMap Call.submitDesc).map fun d => d.signalFence

/-- Calls to the GPU abstraction: every call but those to the overlay that
record nothing (`Draw(pCmd)` records into the command buffer and counts). -/
def Call.isGpu : Call → Bool
  | .uiInit => false
  | .uiLoadFont => false
  | .uiAddGuiComponent => false
  | .uiLoad => false
  | .uiUnload => false
  | .uiExit => false
  | .uiUpdate _ => false
  | .uiGui => false
  | .uiOnButton _ _ _ => false
  | _ => true

/-- State after the first `k` calls of `onRender`, fed with the inputs `ins` in
order; `none` when there are fewer than `k` inputs or a call does not return. -/
def framesState (N : Nat) : List FrameInput → Nat → Triangle → Option Triangle
  | _, 0, s => some s
  | [], _ + 1, _ => none
  | i :: is, k + 1, s => (onRender N i s).bind fun r => framesState N is k r.1

/-- Call stream of tick `k` (ticks numbered from 0) of a run of `onRender`. -/
def tickCalls (N : Nat) (ins : List FrameInput) (k : Nat) (s : Triangle) :
    Option (List Call) :=
  (framesState N ins k s).bind fun sk =>
    ins[k]?.bind fun i => (onRender N i sk).map Prod.snd

/-- A call stream uses frame slot `slot`: the one fence queried, the one command
pool reset, the one command buffer begun, and the signal fence and signal
semaphore of the one submit are those of `slot`. -/
def UsesSlot (slot : Nat) (calls : List Call) : Prop :=
  calls.filterMap Call.fenceQueried = [slot] ∧
  calls.filterMap Call.poolReset = [slot] ∧
  calls.filterMap Call.cmdBegun = [slot] ∧
  signalFences calls = [some slot] ∧
  (calls.filterMap Call.submitDesc).map (fun d => d.signalSemaphores) =
    [[Semaphore.renderComplete slot]]

/-- Frame-pacing law at tick `k` of a run, `inp` being the input of that tick:
the tick returns and uses slot `k % N`; the fences it waits on are the fence of
that slot when the reported status is incomplete, and none otherwise; when
`N ≤ k`, tick `k - N` submitted with one signal fence `f`, tick `k` queries
exactly `f`, and it waits on exactly `f` when the status is incomplete and on no
fence otherwise. -/
def FramePacing (N : Nat) (ins : List FrameInput) (s : Triangle) (k : Nat) : Prop :=
  ∃ calls inp, ins[k]? = some inp ∧ tickCalls N ins k s = some calls ∧
    UsesSlot (k % N) calls ∧
    fencesWaited calls =
      (if inp.fenceStatus = FenceStatus.incomplete then [k % N] else []) ∧
    (N ≤ k → ∃ prev f, tickCalls N ins (k - N) s = some prev ∧
      signalFences prev = [some f] ∧
      calls.filterMap Call.fenceQueried = [f] ∧
      fencesWaited calls =
        (if inp.fenceStatus = FenceStatus.incomplete then [f] else []))

/-- Dimensions handed to `addRenderTarget`, for that call only. -/
def Call.depthCreated : Call → Option (Int × Int)
  | .addRenderTarget w h => some (w, h)
  | _ => none

/-- Dimensions handed to `addSwapChain`, for that call only. -/
def Call.swapChainCreated : Call → Option (Int × Int)
  | .addSwapChain w h _ _ => some (w, h)
  | _ => none

/-- Recognises the destruction or creation of a swapchain or depth target. -/
def Call.isRecreation : Call → Bool
  | .removeSwapChain => true
  | .removeRenderTarget => true
  | .addSwapChain _ _ _ _ => true
  | .addRenderTarget _ _ => true
  | _ => false

/-- Recognises `waitQueueIdle` and `toggleVSync`. -/
def Call.isReconcile : Call → Bool
  | .waitQueueIdle => true
  | .toggleVSync => true
  | _ => false

/-- Order of the GPU calls of one tick, for frame slot `slot`, the reported fence
status and the outcome `mismatch` of the vsync comparison: acquire, fence query,
fence wait exactly when the status is incomplete, pool reset, begin, the recorded
commands, end, submit, present, and the drain and toggle exactly on a mismatch.
Before the fence query no pool is reset and no command buffer is begun. -/
def TickOrder (slot : Nat) (status : FenceStatus) (mismatch : Bool) (calls : List Call) :
    Prop :=
  (∃ (acq : Semaphore) (recorded : List Call) (sd : QueueSubmitDesc)
      (pd : QueuePresentDesc),
    calls.filter Call.isGpu =
      [Call.acquireNextImage acq, Call.getFenceStatus slot]
        ++ (if status = FenceStatus.incomplete then [Call.waitForFences [slot]] else [])
        ++ [Call.resetCmdPool slot, Call.beginCmd slot]
        ++ recorded
        ++ [Call.endCmd slot, Call.queueSubmit sd, Call.queuePresent pd]
        ++ (if mismatch then [Call.waitQueueIdle, Call.toggleVSync] else []) ∧
    recorded ≠ [] ∧ ∀ c ∈ recorded, c.isRecorded = true) ∧
  ∃ before after, calls = before ++ Call.getFenceStatus slot :: after ∧
    before.filterMap Call.poolReset = [] ∧ before.filterMap Call.cmdBegun = []

/-- One tick in full, for C4: the body `renderFrame` issues the calls in the order
`TickOrder` and leaves the frame index alone; `onRender` returns the state of the
body with the frame index advanced, and the same calls. -/
def TickSequence (N : Nat) (inp : FrameInput) (s : Triangle) (sc : SwapChain) : Prop :=
  ∃ s1 calls, renderFrame inp s = some (s1, calls) ∧
    s1.mFrameIndex = s.mFrameIndex ∧
    onRender N inp s = some ({ s1 with mFrameIndex := (s.mFrameIndex + 1) % N }, calls) ∧
    TickOrder s.mFrameIndex inp.fenceStatus (sc.mEnableVsync != inp.checkboxAfterGui) calls

/-- Vsync reconcile of one tick entered with swapchain `sc`: the calls are
`body` followed by `tail`; `body` ends with `queuePresent` and holds neither
`waitQueueIdle` nor `toggleVSync`; `tail` is the drain followed by the toggle when
the swapchain flag differs from the checkbox value at the end of the tick, and
empty when they agree; after the tick the swapchain flag equals the checkbox. -/
def VsyncReconcile (N : Nat) (inp : FrameInput) (s : Triangle) (sc : SwapChain) : Prop :=
  ∃ s1 calls sc1 body pd,
    onRender N inp s = some (s1, calls) ∧ s1.mSwapChain = some sc1 ∧
    s1.mVSyncEnabled = inp.checkboxAfterGui ∧
    calls = (body ++ [Call.queuePresent pd]) ++
      (if sc.mEnableVsync = s1.mVSyncEnabled then []
        else [Call.waitQueueIdle, Call.toggleVSync]) ∧
    body.filter Call.isReconcile = [] ∧
    sc1.mEnableVsync = s1.mVSyncEnabled

/-- First tick after a swapchain (re)creation that succeeded, from any state: the
new swapchain starts with vsync enabled, and after the tick its flag equals the
checkbox. -/
def VsyncAfterCreation (N : Nat) (inp : FrameInput) : Prop :=
  ∀ (out : CreateOutcome) (s0 : Triangle),
    ∃ sc s1 calls sc1,
      (createSwapchainResources N { out with swapChainCreated := true } s0).2.1.mSwapChain
        = some sc ∧
      sc.mEnableVsync = true ∧
      onRender N inp
        (createSwapchainResources N { out with swapChainCreated := true } s0).2.1
        = some (s1, calls) ∧
      s1.mSwapChain = some sc1 ∧ sc1.mEnableVsync = s1.mVSyncEnabled

/-- Channel name and matrix handed to `cmdBindPushConstants`, for that call only. -/
def Call.pushedConstants : Call → Option (String × Mat4)
  | .cmdBindPushConstants _ name m => some (name, m)
  | _ => none

/-- Rotation added by one tick: `deltaTime * mRotationSpeed`, with the delta
time in seconds and the slider value read after `mAppUI.Update`. -/
def angleStep (i : FrameInput) : ℚ :=
  i.timerMSec / 1000 * i.sliderAfterUpdate

/-- Sum of `delta_i * speed_i` over the ticks `i ≤ k` of a run. -/
def angleAfter (ins : List FrameInput) (k : Nat) : ℚ :=
  ((ins.take (k + 1)).map angleStep).sum

/-- Push-constant freshness at tick `k` of a run from state `s`: the tick returns
and pushes one matrix, on the channel "UniformBlockRootConstant"; it is the term
`(Proj * View) * modelMatrix angle_k`; under every interpretation of glm its value
is `Proj * View * Model(angle_k)` with `Model` as the specification words it; and
when the speed is 0 in every tick it is the matrix for angle 0, whatever `k`. -/
def PushConstantFresh (N : Nat) (ins : List FrameInput) (s : Triangle) (k : Nat) : Prop :=
  ∃ calls m, tickCalls N ins k s = some calls ∧
    calls.filterMap Call.pushedConstants = [("UniformBlockRootConstant", m)] ∧
    m = Mat4.mul (Mat4.mul s.mProjMatrix s.mViewMatrix) (modelMatrix (angleAfter ins k)) ∧
    (∀ (M : Type) [Monoid M] (sem : GlmSem M),
      m.eval sem =
        s.mProjMatrix.eval sem * s.mViewMatrix.eval sem * specModel sem (angleAfter ins k)) ∧
    ((∀ i ∈ ins, i.sliderAfterUpdate = 0) →
      m = Mat4.mul (Mat4.mul s.mProjMatrix s.mViewMatrix) (modelMatrix 0))

/-- Behaviour of `onSize`: with the current dimensions, no call and the same
state; with other dimensions, the new dimensions are stored and the GPU calls are
the drain, the destruction of the swapchain and of the depth target, the creation
of a swapchain with the new dimensions and, when that swapchain is non-null, the
creation of a depth target with the new dimensions. -/
def ResizeBehaviour (N : Nat) (out : CreateOutcome) (width height : Int) (s : Triangle) :
    Prop :=
  if width = s.mFbWidth ∧ height = s.mFbHeight then
    onSize N out width height s = (s, [])
  else
    (onSize N out width height s).1.mFbWidth = width ∧
    (onSize N out width height s).1.mFbHeight = height ∧
    (onSize N out width height s).2.filter Call.isGpu =
      [Call.waitQueueIdle, Call.removeSwapChain, Call.removeRenderTarget,
        Call.addSwapChain width height N true]
        ++ (if out.swapChainCreated then [Call.addRenderTarget width height] else []) ∧
    (onSize N out width height s).1.mSwapChain =
      (if out.swapChainCreated then some ⟨width, height, N, true⟩ else none)

/-- Behaviour of `onSize` on a zero dimension: recreation is skipped when the
dimensions are the current ones; otherwise the swapchain and the depth target are
destroyed and a swapchain is created with the given dimensions, followed, when it
is non-null, by a depth target with the given dimensions. -/
def ZeroSizeBehaviour (N : Nat) (out : CreateOutcome) (width height : Int)
    (s : Triangle) : Prop :=
  if width = s.mFbWidth ∧ height = s.mFbHeight then
    (onSize N out width height s).2.filter Call.isRecreation = []
  else
    (onSize N out width height s).2.filter Call.isRecreation =
      [Call.removeSwapChain, Call.removeRenderTarget, Call.addSwapChain width height N true]
        ++ (if out.swapChainCreated then [Call.addRenderTarget width height] else [])

/-- The GPU resources `init` creates and the destructor releases: the queue, the
per-slot fence, semaphore, command pool and command buffer, the image-acquired
semaphore, the swapchain, the depth target, the loaded buffers and texture, the
sampler, the shader, the root signature, the descriptor set and the pipeline. -/
inductive Resource where
  | queue
  | fence (slot : Nat)
  | semaphore (sem : Semaphore)
  | cmdPool (slot : Nat)
  | cmd (slot : Nat)
  | swapChain
  | depthBuffer
  | loaded (res : LoadedResource)
  | sampler
  | shader
  | rootSignature
  | descriptorSet
  | pipeline
  deriving DecidableEq, Repr

/-- Resource created by a call, if any. -/
def Call.creates : Call → Option Resource
  | .addQueue => some Resource.queue
  | .addFence i => some (Resource.fence i)
  | .addSemaphore sem => some (Resource.semaphore sem)
  | .addCmdPool i => some (Resource.cmdPool i)
  | .addCmd i => some (Resource.cmd i)
  | .addSwapChain _ _ _ _ => some Resource.swapChain
  | .addRenderTarget _ _ => some Resource.depthBuffer
  | .addResource r => some (Resource.loaded r)
  | .addSampler => some Resource.sampler
  | .addShader => some Resource.shader
  | .addRootSignature => some Resource.rootSignature
  | .addDescriptorSet => some Resource.descriptorSet
  | .addPipeline => some Resource.pipeline
  | _ => none

/-- Resource released by a call, if any. -/
def Call.releases : Call → Option Resource
  | .removeQueue => some Resource.queue
  | .removeFence i => some (Resource.fence i)
  | .removeSemaphore sem => some (Resource.semaphore sem)
  | .removeCmdPool i => some (Resource.cmdPool i)
  | .removeCmd i => some (Resource.cmd i)
  | .removeSwapChain => some Resource.swapChain
  | .removeRenderTarget => some Resource.depthBuffer
  | .removeResource r => some (Resource.loaded r)
  | .removeSampler => some Resource.sampler
  | .removeShader => some Resource.shader
  | .removeRootSignature => some Resource.rootSignature
  | .removeDescriptorSet => some Resource.descriptorSet
  | .removePipeline => some Resource.pipeline
  | _ => none

/-- Resources created by iteration `i` of the loop of `init`, in order. -/
def slotCreates (i : Nat) : List Resource :=
  [Resource.fence i, Resource.semaphore (Semaphore.renderComplete i), Resource.cmdPool i,
    Resource.cmd i]

/-- Resources released by iteration `i` of the loop of the destructor, in order. -/
def slotReleases (i : Nat) : List Resource :=
  [Resource.fence i, Resource.semaphore (Semaphore.renderComplete i), Resource.cmd i,
    Resource.cmdPool i]

/-- Resources created by `init`, in creation order. -/
def createdBy (N : Nat) (env : InitOutcome) (s0 : Triangle) : List Resource :=
  (init N env s0).2.2.filterMap Call.creates

/-- Resources released by the destructor run on the state left by `init`, in
release order. -/
def releasedAfter (N : Nat) (env : InitOutcome) (s0 : Triangle) : List Resource :=
  (destructor N (init N env s0).2.1).filterMap Call.releases

/-- Order in which the destructor releases the resources, for `N` slots: the
texture, the vertex buffer, the index buffer, the shader, the root signature, the
descriptor set, the pipeline, the sampler, the swapchain, the depth target, then
slot by slot in ascending order the fence, the semaphore, the command buffer and
the command pool, then the image-acquired semaphore, and last the queue. -/
def releaseOrder (N : Nat) : List Resource :=
  [Resource.loaded LoadedResource.texture, Resource.loaded LoadedResource.vertexBuffer,
    Resource.loaded LoadedResource.indexBuffer, Resource.shader, Resource.rootSignature,
    Resource.descriptorSet, Resource.pipeline, Resource.sampler, Resource.swapChain,
    Resource.depthBuffer]
    ++ (forSlots slotReleases N ++
      [Resource.semaphore Semaphore.imageAcquired, Resource.queue])

/-- Teardown after `init`: the first GPU call of the destructor is
`waitQueueIdle` and it is the only drain; no resource is released before it; the
resources released are those created by `init`, each once; they are released in
the order `releaseOrder`, texture first and queue last; this order is not the
reverse of the order of creation, which ends with the pipeline. -/
def Teardown (N : Nat) (env : InitOutcome) (s0 : Triangle) : Prop :=
  ((destructor N (init N env s0).2.1).filter Call.isGpu).head? = some Call.waitQueueIdle ∧
    ((destructor N (init N env s0).2.1).take 1).filterMap Call.releases = [] ∧
    (releasedAfter N env s0).Perm (createdBy N env s0) ∧
    (releasedAfter N env s0).Nodup ∧
    releasedAfter N env s0 = releaseOrder N ∧
    (releasedAfter N env s0).head? = some (Resource.loaded LoadedResource.texture) ∧
    (releasedAfter N env s0).getLast? = some Resource.queue ∧
    (createdBy N env s0).getLast? = some Resource.pipeline ∧
    releasedAfter N env s0 ≠ (createdBy N env s0).reverse

/-- Arguments of an `OnButton` call to the overlay, for that call only. -/
def Call.buttonEvent : Call → Option (InputBinding × Bool × (ℚ × ℚ))
  | .uiOnButton b pressed pos => some (b, pressed, pos)
  | _ => none

/-- Recognises the calls to the overlay. -/
def Call.isUi : Call → Bool
  | .uiInit => true
  | .uiLoadFont => true
  | .uiAddGuiComponent => true
  | .uiLoad => true
  | .uiUnload => true
  | .uiExit => true
  | .uiUpdate _ => true
  | .uiGui => true
  | .uiDraw _ => true
  | .uiOnButton _ _ _ => true
  | _ => false

/-- Remapping of the mouse buttons by `onMouseButton`: for the left button the
state is kept, the only call is one `OnButton` to the overlay, with `BUTTON_SOUTH`,
with `pressed` true exactly when the action is `GLFW_PRESS`, and with the stored
mouse position; for any other button there is no call at all and the state is
kept. -/
def MouseButtonRemap (button action : Int) (s : Triangle) : Prop :=
  if button = GLFW_MOUSE_BUTTON_1 then
    ∃ pressed : Bool,
      onMouseButton button action s =
        (s, [Call.uiOnButton InputBinding.BUTTON_SOUTH pressed s.mMousePosition]) ∧
      (onMouseButton button action s).2.filterMap Call.buttonEvent =
        [(InputBinding.BUTTON_SOUTH, pressed, s.mMousePosition)] ∧
      (pressed = true ↔ action = GLFW_PRESS)
  else
    onMouseButton button action s = (s, []) ∧
      (onMouseButton button action s).2.filter Call.isUi = []

/-! ## Sample data -/

/-- A swapchain of three 800x600 images with vsync on. -/
def sampleSwapChain : SwapChain :=
  { mWidth := 800, mHeight := 600, mImageCount := 3, mEnableVsync := true }

/-- An object state as left by a successful start-up at 800x600. -/
def sampleTriangle : Triangle :=
  { mRenderer := true,
    mFbWidth := 800,
    mFbHeight := 600,
    mSwapChain := some sampleSwapChain,
    mDepthBuffer := some ⟨800, 600⟩,
    mLoadActions := ⟨LoadActionType.clear, LoadActionType.clear⟩,
    mFrameIndex := 0,
    mIndexCount := 36,
    mRotation := 0,
    mRotationSpeed := 0,
    mVSyncEnabled := true,
    mMousePosition := (0, 0),
    mModelMatrix := Mat4.identity,
    mViewMatrix := Mat4.lookAt ⟨0, 0, -5⟩ ⟨0, 0, 0⟩ ⟨0, 1, 0⟩,
    mProjMatrix := Mat4.perspective 45 (800 / 600) (1 / 10) 100 }

/-- A tick of 16 ms with the window focused, image 1 acquired, the fence
still incomplete and the checkbox switched off. -/
def sampleInput : FrameInput :=
  { timerMSec := 16,
    windowFocused := true,
    cursorPos := (10, 20),
    checkboxAfterUpdate := true,
    sliderAfterUpdate := 1 / 2,
    swapchainImageIndex := 1,
    fenceStatus := FenceStatus.incomplete,
    checkboxAfterGui := false,
    sliderAfterGui := 1 / 2 }

/-- Creation outcome in which everything succeeds. -/
def allCreated : CreateOutcome :=
  { swapChainCreated := true, depthBufferCreated := true, uiLoaded := true }

/-- Creation outcome in which `addSwapChain` leaves `mSwapChain` null. -/
def swapChainFailed : CreateOutcome :=
  { swapChainCreated := false, depthBufferCreated := true, uiLoaded := true }

/-- An object before `init`: no renderer, no swapchain. -/
def freshTriangle : Triangle :=
  { sampleTriangle with
      mRenderer := false, mFbWidth := 0, mFbHeight := 0, mSwapChain := none,
      mDepthBuffer := none, mIndexCount := 0, mViewMatrix := Mat4.identity,
      mProjMatrix := Mat4.identity }

/-- A start-up at 800x600 in which every step succeeds. -/
def initOk : InitOutcome :=
  { memAllocOk := true, fileSystemOk := true, fbWidth := 800, fbHeight := 600,
    rendererCreated := true, uiInitOk := true, create := allCreated }

/-! ## Theorems -/

/-- C1: in every tick of `onRender`, whatever image index the acquire returns,
the recorded commands hold exactly two resource barriers, both on the acquired
colour target: first present -> render-target, last render-target -> present,
with every render-target bind, the indexed draw and the UI draw in between. -/
theorem onRender_barriers_bracket_draws (N : Nat) (inp : FrameInput) (s : Triangle)
    (sc : SwapChain) (h : s.mSwapChain = some sc) :
    ∃ s1 calls, onRender N inp s = some (s1, calls) ∧
      BarriersBracketDraws s.mFrameIndex inp.swapchainImageIndex calls := by
  simp only [onRender, renderFrame, h, Option.map_some']
  refine ⟨_, _, rfl, ?_⟩
  refine ⟨(((recordFrame s.mFrameIndex inp.swapchainImageIndex sc s
    (Mat4.mul (Mat4.mul s.mProjMatrix s.mViewMatrix)
      (modelMatrix (s.mRotation + inp.timerMSec / 1000 * inp.sliderAfterUpdate)))).filter
        Call.isRecorded).drop 1).dropLast, ?_, ?_⟩
  · by_cases hf : inp.fenceStatus = FenceStatus.incomplete <;>
      simp [recordedCommands, recordFrame, hf, Call.isBeginCmd, Call.isEndCmd,
        Call.isRecorded, List.dropWhile, List.takeWhile, List.filter]
  · by_cases hf : inp.fenceStatus = FenceStatus.incomplete <;>
      by_cases hv : sc.mEnableVsync = inp.checkboxAfterGui <;>
      simp [recordedCommands, recordFrame, hf, hv, Call.isBeginCmd, Call.isEndCmd,
        Call.isRecorded, Call.isResourceBarrier, Call.isBindRenderTargets,
        Call.isDrawIndexed, Call.isUiDraw, List.dropWhile, List.takeWhile, List.filter]

/-- Witness of C1 on the sample tick: image 1 acquired in slot 0. -/
theorem onRender_barriers_bracket_draws_witness :
    sampleTriangle.mSwapChain = some sampleSwapChain ∧
      ∃ s1 calls, onRender 3 sampleInput sampleTriangle = some (s1, calls) ∧
        BarriersBracketDraws 0 1 calls :=
  ⟨rfl, onRender_barriers_bracket_draws 3 sampleInput sampleTriangle sampleSwapChain rfl⟩

/-- C2: in every tick of `onRender` using frame slot `s.mFrameIndex`, the submit
waits on exactly the image-acquired semaphore handed to the acquire of that tick
and signals exactly the render-complete semaphore of the slot; the present waits
on exactly that render-complete semaphore and presents the acquired image. -/
theorem onRender_semaphore_wiring (N : Nat) (inp : FrameInput) (s : Triangle)
    (sc : SwapChain) (h : s.mSwapChain = some sc) :
    ∃ s1 calls, onRender N inp s = some (s1, calls) ∧
      SemaphoreWiring s.mFrameIndex inp.swapchainImageIndex calls := by
  simp only [onRender, renderFrame, h, Option.map_some']
  refine ⟨_, _, rfl, ?_⟩
  refine ⟨Semaphore.imageAcquired,
    ⟨[s.mFrameIndex], [Semaphore.renderComplete s.mFrameIndex], [Semaphore.imageAcquired],
      some s.mFrameIndex⟩,
    ⟨inp.swapchainImageIndex, [Semaphore.renderComplete s.mFrameIndex], true⟩,
    ?_, ?_, ?_, rfl, rfl, rfl, rfl, rfl⟩ <;>
    by_cases hf : inp.fenceStatus = FenceStatus.incomplete <;>
    by_cases hv : sc.mEnableVsync = inp.checkboxAfterGui <;>
    simp [recordFrame, hf, hv, Call.acquireSignal, Call.submitDesc, Call.presentDesc,
      List.filterMap]

/-- Witness of C2 on the sample tick: slot 0, image 1. -/
theorem onRender_semaphore_wiring_witness :
    sampleTriangle.mSwapChain = some sampleSwapChain ∧
      ∃ s1 calls, onRender 3 sampleInput sampleTriangle = some (s1, calls) ∧
        SemaphoreWiring 0 1 calls :=
  ⟨rfl, onRender_semaphore_wiring 3 sampleInput sampleTriangle sampleSwapChain rfl⟩

/-- State left by one tick: with a swapchain present `onRender` returns; the
swapchain stays present, the frame index advances modulo `N`, the rotation grows
by `deltaTime * mRotationSpeed`, and the view and projection matrices and the
framebuffer size are kept. -/
theorem onRender_state (N : Nat) (inp : FrameInput) (s : Triangle) (sc : SwapChain)
    (h : s.mSwapChain = some sc) :
    ∃ s1 calls sc1, onRender N inp s = some (s1, calls) ∧
      s1.mSwapChain = some sc1 ∧
      s1.mFrameIndex = (s.mFrameIndex + 1) % N ∧
      s1.mRotation = s.mRotation + inp.timerMSec / 1000 * inp.sliderAfterUpdate ∧
      s1.mProjMatrix = s.mProjMatrix ∧ s1.mViewMatrix = s.mViewMatrix := by
  simp only [onRender, renderFrame, h, Option.map_some']
  exact ⟨_, _, _, rfl, rfl, rfl, rfl, rfl, rfl⟩

/-- Slot use of one tick: the calls of `onRender` use the slot `mFrameIndex`, and
the fences waited on are that slot's fence or none. -/
theorem onRender_uses_slot (N : Nat) (inp : FrameInput) (s : Triangle) (sc : SwapChain)
    (h : s.mSwapChain = some sc) :
    ∃ s1 calls, onRender N inp s = some (s1, calls) ∧ UsesSlot s.mFrameIndex calls ∧
      fencesWaited calls =
        (if inp.fenceStatus = FenceStatus.incomplete then [s.mFrameIndex] else []) := by
  simp only [onRender, renderFrame, h, Option.map_some']
  refine ⟨_, _, rfl, ?_⟩
  by_cases hf : inp.fenceStatus = FenceStatus.incomplete <;>
    by_cases hv : sc.mEnableVsync = inp.checkboxAfterGui <;>
    simp [UsesSlot, signalFences, fencesWaited, recordFrame, hf, hv, Call.fenceQueried,
      Call.poolReset, Call.cmdBegun, Call.submitDesc, List.filterMap]

/-- Run invariant: from a state with a swapchain and frame index `j % N`, the
first `k` ticks return, keep a swapchain, and leave the frame index `(j + k) % N`. -/
theorem framesState_index (N : Nat) (ins : List FrameInput) :
    ∀ (k : Nat) (s : Triangle) (sc : SwapChain) (j : Nat), k ≤ ins.length →
      s.mSwapChain = some sc → s.mFrameIndex = j % N →
      ∃ sk sck, framesState N ins k s = some sk ∧ sk.mSwapChain = some sck ∧
        sk.mFrameIndex = (j + k) % N := by
  induction ins with
  | nil =>
    intro k s sc j hk hsc hj
    have hk0 : k = 0 := by simpa using hk
    subst hk0
    exact ⟨s, sc, rfl, hsc, by simpa using hj⟩
  | cons i is ih =>
    intro k s sc j hk hsc hj
    cases k with
    | zero => exact ⟨s, sc, rfl, hsc, by simpa using hj⟩
    | succ k =>
      obtain ⟨s1, calls, sc1, h1, hsc1, hidx, _, _, _⟩ := onRender_state N i s sc hsc
      have hj1 : s1.mFrameIndex = (j + 1) % N := by
        rw [hidx, hj, Nat.mod_add_mod]
      have hk1 : k ≤ is.length := by simpa using hk
      obtain ⟨sk, sck, hrun, hsck, hidxk⟩ := ih k s1 sc1 (j + 1) hk1 hsc1 hj1
      refine ⟨sk, sck, ?_, hsck, ?_⟩
      · simp [framesState, h1, hrun]
      · rw [hidxk]; congr 1; omega

/-- Tick `k` of a run started at frame index 0 returns and uses slot `k % N`; it
waits on the fence of that slot exactly when the reported status is incomplete. -/
theorem tickCalls_uses_slot (N : Nat) (ins : List FrameInput) (s : Triangle)
    (sc : SwapChain) (hsc : s.mSwapChain = some sc) (h0 : s.mFrameIndex = 0)
    (k : Nat) (hk : k < ins.length) :
    ∃ calls, tickCalls N ins k s = some calls ∧ UsesSlot (k % N) calls ∧
      fencesWaited calls =
        (if ins[k].fenceStatus = FenceStatus.incomplete then [k % N] else []) := by
  have hj : s.mFrameIndex = 0 % N := by simp [h0]
  obtain ⟨sk, sck, hrun, hsck, hidx⟩ :=
    framesState_index N ins k s sc 0 (Nat.le_of_lt hk) hsc hj
  obtain ⟨s1, calls, h1, huse, hwait⟩ := onRender_uses_slot N ins[k] sk sck hsck
  have hidx2 : sk.mFrameIndex = k % N := by simpa using hidx
  refine ⟨calls, ?_, ?_, ?_⟩
  · simp [tickCalls, hrun, List.getElem?_eq_getElem hk, h1]
  · rw [← hidx2]; exact huse
  · rw [← hidx2, hwait]

/-- C3: for a ring of `N > 0` slots and a run of `onRender` started at frame
index 0, tick `k` uses frame slot `k % N`; for `k ≥ N` the only fence tick `k`
queries is the signal fence of the submit of tick `k - N`, it waits on that fence
when the reported status is incomplete, and it waits on no fence otherwise. -/
theorem frame_pacing_law (N : Nat) (hN : 0 < N) (ins : List FrameInput) (s : Triangle)
    (sc : SwapChain) (hsc : s.mSwapChain = some sc) (h0 : s.mFrameIndex = 0)
    (k : Nat) (hk : k < ins.length) : FramePacing N ins s k := by
  obtain ⟨calls, hcalls, huse, hwait⟩ := tickCalls_uses_slot N ins s sc hsc h0 k hk
  refine ⟨calls, ins[k], List.getElem?_eq_getElem hk, hcalls, huse, hwait, ?_⟩
  intro hNk
  have hk2 : k - N < ins.length := by omega
  obtain ⟨prev, hprev, husep, _⟩ := tickCalls_uses_slot N ins s sc hsc h0 (k - N) hk2
  have hmod : (k - N) % N = k % N := (Nat.mod_eq_sub_mod hNk).symm
  rw [hmod] at husep
  exact ⟨prev, k % N, hprev, husep.2.2.2.1, huse.1, hwait⟩

/-- Witness of C3: ring of 3 slots, five sample ticks, tick 4 against tick 1. -/
theorem frame_pacing_law_witness :
    0 < 3 ∧ sampleTriangle.mSwapChain = some sampleSwapChain ∧
      sampleTriangle.mFrameIndex = 0 ∧ 4 < (List.replicate 5 sampleInput).length ∧
      FramePacing 3 (List.replicate 5 sampleInput) sampleTriangle 4 :=
  ⟨by decide, rfl, rfl, by decide,
    frame_pacing_law 3 (by decide) (List.replicate 5 sampleInput) sampleTriangle
      sampleSwapChain rfl rfl 4 (by decide)⟩

/-- C4: every tick of `onRender` issues its GPU calls in the order acquire, fence
query, fence wait if and only if the status is incomplete, pool reset, begin, the
recorded commands, end, submit, present, vsync reconcile, and only then advances
the frame index; no pool is reset and no command buffer begun before the fence
query. -/
theorem onRender_call_order (N : Nat) (inp : FrameInput) (s : Triangle) (sc : SwapChain)
    (h : s.mSwapChain = some sc) : TickSequence N inp s sc := by
  simp only [TickSequence, onRender, renderFrame, h, Option.map_some']
  refine ⟨_, _, rfl, rfl, rfl, ⟨Semaphore.imageAcquired,
    (recordFrame s.mFrameIndex inp.swapchainImageIndex sc s
      (Mat4.mul (Mat4.mul s.mProjMatrix s.mViewMatrix)
        (modelMatrix (s.mRotation + inp.timerMSec / 1000 * inp.sliderAfterUpdate)))).filter
      Call.isGpu,
    ⟨[s.mFrameIndex], [Semaphore.renderComplete s.mFrameIndex], [Semaphore.imageAcquired],
      some s.mFrameIndex⟩,
    ⟨inp.swapchainImageIndex, [Semaphore.renderComplete s.mFrameIndex], true⟩, ?_, ?_, ?_⟩,
    ?_⟩
  · by_cases hf : inp.fenceStatus = FenceStatus.incomplete <;>
      by_cases hv : sc.mEnableVsync = inp.checkboxAfterGui <;>
      simp [recordFrame, hf, hv, Call.isGpu, List.filter]
  · simp [recordFrame, Call.isGpu, List.filter]
  · simp [recordFrame, Call.isGpu, Call.isRecorded, List.filter]
  · exact ⟨[Call.uiUpdate (inp.timerMSec / 1000),
      Call.acquireNextImage Semaphore.imageAcquired], _, rfl, rfl, rfl⟩

/-- Witness of C4 on the sample tick. -/
theorem onRender_call_order_witness :
    sampleTriangle.mSwapChain = some sampleSwapChain ∧
      TickSequence 3 sampleInput sampleTriangle sampleSwapChain :=
  ⟨rfl, onRender_call_order 3 sampleInput sampleTriangle sampleSwapChain rfl⟩

/-- C6: a tick of `onRender` ends with `waitQueueIdle` immediately followed by
`toggleVSync`, both after `queuePresent`, when the swapchain flag differs from the
checkbox value at the end of the tick, and issues neither when they agree; with
`toggleVSync` inverting the flag, the two flags are equal after the tick, also in
the first tick after a (re)creation, which starts with vsync enabled. -/
theorem onRender_vsync_reconcile (N : Nat) (inp : FrameInput) (s : Triangle)
    (sc : SwapChain) (h : s.mSwapChain = some sc) :
    VsyncReconcile N inp s sc ∧ VsyncAfterCreation N inp := by
  constructor
  · simp only [VsyncReconcile, onRender, renderFrame, h, Option.map_some']
    refine ⟨_, _, _,
      [Call.uiUpdate (inp.timerMSec / 1000), Call.acquireNextImage Semaphore.imageAcquired]
        ++ (Call.getFenceStatus s.mFrameIndex ::
          (if inp.fenceStatus = FenceStatus.incomplete then
            [Call.waitForFences [s.mFrameIndex]] else []))
        ++ [Call.resetCmdPool s.mFrameIndex, Call.beginCmd s.mFrameIndex]
        ++ recordFrame s.mFrameIndex inp.swapchainImageIndex sc s
          (Mat4.mul (Mat4.mul s.mProjMatrix s.mViewMatrix)
            (modelMatrix (s.mRotation + inp.timerMSec / 1000 * inp.sliderAfterUpdate)))
        ++ [Call.endCmd s.mFrameIndex,
            Call.queueSubmit ⟨[s.mFrameIndex], [Semaphore.renderComplete s.mFrameIndex],
              [Semaphore.imageAcquired], some s.mFrameIndex⟩],
      ⟨inp.swapchainImageIndex, [Semaphore.renderComplete s.mFrameIndex], true⟩,
      rfl, rfl, rfl, ?_, ?_, ?_⟩
    · by_cases hv : sc.mEnableVsync = inp.checkboxAfterGui <;> simp [hv]
    · by_cases hf : inp.fenceStatus = FenceStatus.incomplete <;>
        simp [recordFrame, hf, Call.isReconcile, List.filter]
    · cases hsv : sc.mEnableVsync <;> cases hc : inp.checkboxAfterGui <;>
        simp [toggleVSync, hsv]
  · intro out s0
    simp only [createSwapchainResources, onRender, renderFrame, if_true]
    cases hd : out.depthBufferCreated <;> cases hc : inp.checkboxAfterGui <;>
      simp [toggleVSync]

/-- Witness of C6 on the sample tick: vsync on, checkbox switched off. -/
theorem onRender_vsync_reconcile_witness :
    sampleTriangle.mSwapChain = some sampleSwapChain ∧
      VsyncReconcile 3 sampleInput sampleTriangle sampleSwapChain ∧
      VsyncAfterCreation 3 sampleInput :=
  ⟨rfl, onRender_vsync_reconcile 3 sampleInput sampleTriangle sampleSwapChain rfl⟩

/-- C5, as stated, fails: resizing the 800x600 sample to 1024x768 while
`addSwapChain` leaves the swapchain null issues the swapchain creation and no
depth target creation. -/
theorem onSize_no_depth_when_swapchain_null :
    ¬ ((1024 : Int) = sampleTriangle.mFbWidth ∧ (768 : Int) = sampleTriangle.mFbHeight) ∧
      (onSize 3 swapChainFailed 1024 768 sampleTriangle).2.filterMap Call.swapChainCreated
        = [(1024, 768)] ∧
      (onSize 3 swapChainFailed 1024 768 sampleTriangle).2.filterMap Call.depthCreated
        = [] := by
  refine ⟨by decide, ?_, ?_⟩ <;>
    simp [onSize, createSwapchainResources, swapChainFailed, sampleTriangle,
      Call.swapChainCreated, Call.depthCreated, List.filterMap]

/-- C5, amended: `onSize` with the current dimensions issues no call and keeps
the state; with other dimensions it stores them and issues the drain, the two
destructions, the swapchain creation with the new dimensions and, when the new
swapchain is non-null, the depth target creation with the new dimensions. -/
theorem onSize_resize (N : Nat) (out : CreateOutcome) (width height : Int) (s : Triangle) :
    ResizeBehaviour N out width height s := by
  unfold ResizeBehaviour
  by_cases hd : width = s.mFbWidth ∧ height = s.mFbHeight
  · simp [onSize, hd]
  · rw [if_neg hd]
    cases hs : out.swapChainCreated <;> cases hb : out.depthBufferCreated <;>
      simp [onSize, createSwapchainResources, hd, hs, hb, Call.isGpu, List.filter]

/-- C8, as stated, fails: `onSize(0, 0)` on the 800x600 sample destroys the
swapchain and the depth target and creates both anew with size 0x0. -/
theorem onSize_zero_recreates :
    ((0 : Int) = 0 ∨ (0 : Int) = 0) ∧
      ((onSize 3 allCreated 0 0 sampleTriangle).2.filter Call.isRecreation).length = 4 ∧
      (onSize 3 allCreated 0 0 sampleTriangle).2.filterMap Call.swapChainCreated
        = [(0, 0)] ∧
      (onSize 3 allCreated 0 0 sampleTriangle).2.filterMap Call.depthCreated
        = [(0, 0)] := by
  refine ⟨Or.inl rfl, ?_, ?_, ?_⟩ <;>
    simp [onSize, createSwapchainResources, allCreated, sampleTriangle,
      Call.swapChainCreated, Call.depthCreated, Call.isRecreation, List.filterMap,
      List.filter]

/-- C8, amended: `onSize` with width 0 (first part) or height 0 (second part)
skips recreation when these are the current dimensions, and otherwise destroys the swapchain and the depth
target and creates the swapchain (and, when it is non-null, the depth target)
with the given dimensions. -/
theorem onSize_zero_dimensions (N : Nat) (out : CreateOutcome) (width height : Int)
    (s : Triangle) :
    ZeroSizeBehaviour N out 0 height s ∧ ZeroSizeBehaviour N out width 0 s := by
  constructor
  · unfold ZeroSizeBehaviour
    by_cases hd : (0 : Int) = s.mFbWidth ∧ height = s.mFbHeight
    · simp [onSize, hd]
    · rw [if_neg hd]
      cases hs : out.swapChainCreated <;> cases hb : out.depthBufferCreated <;>
        simp [onSize, createSwapchainResources, hd, hs, hb, Call.isRecreation, List.filter]
  · unfold ZeroSizeBehaviour
    by_cases hd : width = s.mFbWidth ∧ (0 : Int) = s.mFbHeight
    · simp [onSize, hd]
    · rw [if_neg hd]
      cases hs : out.swapChainCreated <;> cases hb : out.depthBufferCreated <;>
        simp [onSize, createSwapchainResources, hd, hs, hb, Call.isRecreation, List.filter]

/-- Push constants of one tick: `onRender` pushes one matrix, on the channel
"UniformBlockRootConstant": projection times view times the model matrix of the
rotation advanced by this tick. -/
theorem onRender_pushes (N : Nat) (inp : FrameInput) (s : Triangle) (sc : SwapChain)
    (h : s.mSwapChain = some sc) :
    ∃ s1 calls, onRender N inp s = some (s1, calls) ∧
      calls.filterMap Call.pushedConstants =
        [("UniformBlockRootConstant",
          Mat4.mul (Mat4.mul s.mProjMatrix s.mViewMatrix)
            (modelMatrix (s.mRotation + angleStep inp)))] := by
  simp only [onRender, renderFrame, h, Option.map_some']
  refine ⟨_, _, rfl, ?_⟩
  by_cases hf : inp.fenceStatus = FenceStatus.incomplete <;>
    by_cases hv : sc.mEnableVsync = inp.checkboxAfterGui <;>
    simp [recordFrame, hf, hv, Call.pushedConstants, List.filterMap, angleStep]

/-- Run invariant for the rotation: the first `k` ticks return, keep a swapchain,
keep the projection and view matrices, and add the steps of these ticks to the
rotation. -/
theorem framesState_rotation (N : Nat) (ins : List FrameInput) :
    ∀ (k : Nat) (s : Triangle) (sc : SwapChain), k ≤ ins.length →
      s.mSwapChain = some sc →
      ∃ sk sck, framesState N ins k s = some sk ∧ sk.mSwapChain = some sck ∧
        sk.mRotation = s.mRotation + ((ins.take k).map angleStep).sum ∧
        sk.mProjMatrix = s.mProjMatrix ∧ sk.mViewMatrix = s.mViewMatrix := by
  induction ins with
  | nil =>
    intro k s sc hk hsc
    have hk0 : k = 0 := by simpa using hk
    subst hk0
    exact ⟨s, sc, rfl, hsc, by simp, rfl, rfl⟩
  | cons i is ih =>
    intro k s sc hk hsc
    cases k with
    | zero => exact ⟨s, sc, rfl, hsc, by simp, rfl, rfl⟩
    | succ k =>
      obtain ⟨s1, calls, sc1, h1, hsc1, _, hrot, hp, hv⟩ := onRender_state N i s sc hsc
      have hk1 : k ≤ is.length := by simpa using hk
      obtain ⟨sk, sck, hrun, hsck, hrotk, hpk, hvk⟩ := ih k s1 sc1 hk1 hsc1
      refine ⟨sk, sck, ?_, hsck, ?_, hpk.trans hp, hvk.trans hv⟩
      · simp [framesState, h1, hrun]
      · rw [hrotk, hrot]
        simp [angleStep, add_assoc]

/-- The sum over the ticks `i ≤ k` is the sum over the ticks `i < k` plus the
step of tick `k`. -/
theorem angleAfter_eq (ins : List FrameInput) (k : Nat) (hk : k < ins.length) :
    angleAfter ins k = ((ins.take k).map angleStep).sum + angleStep ins[k] := by
  unfold angleAfter
  rw [List.take_succ, List.getElem?_eq_getElem hk, List.map_append, List.sum_append]
  simp

/-- With speed 0 in every tick the accumulated angle is 0. -/
theorem angleAfter_zero (ins : List FrameInput) (k : Nat)
    (h : ∀ i ∈ ins, i.sliderAfterUpdate = 0) : angleAfter ins k = 0 := by
  unfold angleAfter
  apply List.sum_eq_zero
  intro x hx
  obtain ⟨i, hi, rfl⟩ := List.mem_map.mp hx
  have := h i (List.mem_of_mem_take hi)
  simp [angleStep, this]

/-- Value of the model matrix term: the rotation about Z times the rotation
about X, as the specification words it. -/
theorem modelMatrix_eval {M : Type} [Monoid M] (sem : GlmSem M) (a : ℚ) :
    (modelMatrix a).eval sem = specModel sem a := by
  simp [modelMatrix, Mat4.eval, specModel]

/-- C7: in a run of ticks started at rotation 0, with arithmetic exact, the matrix
pushed on "UniformBlockRootConstant" in tick `k` is `Proj * View * Model(angle_k)`
with `angle_k` the sum of `delta_i * speed_i` over `i ≤ k` and `Model(a)` the
rotation about Z by `a * pi` composed with the rotation about X by `a * pi`; with
speed 0 in every tick the pushed matrix is the same in every tick. -/
theorem push_constant_freshness (N : Nat) (ins : List FrameInput) (s : Triangle)
    (sc : SwapChain) (hsc : s.mSwapChain = some sc) (hr : s.mRotation = 0)
    (k : Nat) (hk : k < ins.length) : PushConstantFresh N ins s k := by
  obtain ⟨sk, sck, hrun, hsck, hrot, hp, hv⟩ :=
    framesState_rotation N ins k s sc (Nat.le_of_lt hk) hsc
  obtain ⟨s1, calls, h1, hpush⟩ := onRender_pushes N ins[k] sk sck hsck
  have hangle : sk.mRotation + angleStep ins[k] = angleAfter ins k := by
    rw [hrot, hr, angleAfter_eq ins k hk, zero_add]
  rw [hangle, hp, hv] at hpush
  refine ⟨calls, _, ?_, hpush, rfl, ?_, ?_⟩
  · simp [tickCalls, hrun, List.getElem?_eq_getElem hk, h1]
  · intro M _ sem
    show Mat4.eval sem s.mProjMatrix * Mat4.eval sem s.mViewMatrix *
      Mat4.eval sem (modelMatrix (angleAfter ins k)) = _
    rw [modelMatrix_eval]
  · intro h0
    rw [angleAfter_zero ins k h0]

/-- Witness of C7: five sample ticks from rotation 0, tick 4. -/
theorem push_constant_freshness_witness :
    sampleTriangle.mSwapChain = some sampleSwapChain ∧ sampleTriangle.mRotation = 0 ∧
      4 < (List.replicate 5 sampleInput).length ∧
      PushConstantFresh 3 (List.replicate 5 sampleInput) sampleTriangle 4 :=
  ⟨rfl, rfl, by decide,
    push_constant_freshness 3 (List.replicate 5 sampleInput) sampleTriangle sampleSwapChain
      rfl rfl 4 (by decide)⟩

/-- Mapping a loop: the resources picked from the calls of a loop are those
picked from each iteration, in order. -/
theorem filterMap_forSlots {α β : Type} (f : α → Option β) (body : Nat → List α) (n : Nat) :
    (forSlots body n).filterMap f = forSlots (fun i => (body i).filterMap f) n := by
  induction n with
  | zero => rfl
  | succ n ih => simp [forSlots, List.filterMap_append, ih]

/-- Membership in the output of a loop. -/
theorem mem_forSlots {α : Type} (body : Nat → List α) (n : Nat) (x : α) :
    x ∈ forSlots body n ↔ ∃ i, i < n ∧ x ∈ body i := by
  induction n with
  | zero => simp [forSlots]
  | succ n ih =>
    simp only [forSlots, List.mem_append, ih]
    constructor
    · rintro (⟨i, hi, hx⟩ | hx)
      · exact ⟨i, Nat.lt_succ_of_lt hi, hx⟩
      · exact ⟨n, Nat.lt_succ_self n, hx⟩
    · rintro ⟨i, hi, hx⟩
      rcases Nat.lt_succ_iff_lt_or_eq.mp hi with h | h
      · exact Or.inl ⟨i, h, hx⟩
      · subst h; exact Or.inr hx

/-- Two loops whose iterations agree up to order agree up to order. -/
theorem forSlots_perm {α : Type} (b1 b2 : Nat → List α) (h : ∀ i, (b1 i).Perm (b2 i))
    (n : Nat) : (forSlots b1 n).Perm (forSlots b2 n) := by
  induction n with
  | zero => exact List.Perm.refl _
  | succ n ih => exact List.Perm.append ih (h n)

/-- A loop whose iterations repeat nothing and share nothing repeats nothing. -/
theorem forSlots_nodup {α : Type} (body : Nat → List α) (h1 : ∀ i, (body i).Nodup)
    (h2 : ∀ i j x, x ∈ body i → x ∈ body j → i = j) (n : Nat) :
    (forSlots body n).Nodup := by
  induction n with
  | zero => exact List.nodup_nil
  | succ n ih =>
    rw [forSlots, List.nodup_append]
    refine ⟨ih, h1 n, ?_⟩
    intro x hx hxn
    obtain ⟨i, hi, hxi⟩ := (mem_forSlots body n x).mp hx
    have := h2 i n x hxi hxn
    omega

/-- A successful `init` leaves the renderer non-null and has created the queue,
the slot resources, the image-acquired semaphore, the swapchain, the depth
target, the buffers, the texture, the sampler, the shader, the root signature,
the descriptor set and the pipeline, in this order. -/
theorem init_success (N : Nat) (env : InitOutcome) (s0 : Triangle)
    (h : (init N env s0).1 = true) :
    (init N env s0).2.1.mRenderer = true ∧
      createdBy N env s0 =
        Resource.queue :: (forSlots slotCreates N ++
          [Resource.semaphore Semaphore.imageAcquired, Resource.swapChain,
            Resource.depthBuffer, Resource.loaded LoadedResource.vertexBuffer,
            Resource.loaded LoadedResource.indexBuffer,
            Resource.loaded LoadedResource.texture, Resource.sampler, Resource.shader,
            Resource.rootSignature, Resource.descriptorSet, Resource.pipeline]) := by
  unfold createdBy
  cases h1 : env.memAllocOk
  · simp [init, h1] at h
  cases h2 : env.fileSystemOk
  · simp [init, h1, h2] at h
  cases h3 : env.rendererCreated
  · simp [init, h1, h2, h3] at h
  cases h4 : env.uiInitOk
  · simp [init, h1, h2, h3, h4] at h
  cases h5 : env.create.swapChainCreated
  · simp [init, createSwapchainResources, h1, h2, h3, h4, h5] at h
  cases h6 : env.create.depthBufferCreated
  · simp [init, createSwapchainResources, h1, h2, h3, h4, h5, h6] at h
  cases h7 : env.create.uiLoaded
  · simp [init, createSwapchainResources, h1, h2, h3, h4, h5, h6, h7] at h
  simp [init, createSwapchainResources, h1, h2, h3, h4, h5, h6, h7,
    List.filterMap_append, filterMap_forSlots, Call.creates, List.filterMap, slotCreates]
  rfl

/-- Releases of the destructor on a state with a renderer. -/
theorem destructor_releases (N : Nat) (s : Triangle) (h : s.mRenderer = true) :
    ((destructor N s).filter Call.isGpu).head? = some Call.waitQueueIdle ∧
      (destructor N s).filterMap Call.releases =
        [Resource.loaded LoadedResource.texture, Resource.loaded LoadedResource.vertexBuffer,
          Resource.loaded LoadedResource.indexBuffer, Resource.shader,
          Resource.rootSignature, Resource.descriptorSet, Resource.pipeline,
          Resource.sampler, Resource.swapChain, Resource.depthBuffer]
          ++ (forSlots slotReleases N ++
            [Resource.semaphore Semaphore.imageAcquired, Resource.queue]) := by
  constructor
  · simp [destructor, h, Call.isGpu, List.filter]
  · simp [destructor, h, List.filterMap_append, filterMap_forSlots, Call.releases,
      List.filterMap, slotReleases]
    rfl

/-- The slot resources released are those created, up to order, each once. -/
theorem slot_resources (N : Nat) :
    (forSlots slotReleases N).Perm (forSlots slotCreates N) ∧
      (forSlots slotReleases N).Nodup := by
  constructor
  · apply forSlots_perm
    intro i
    simp only [slotReleases, slotCreates]
    exact List.Perm.cons _ (List.Perm.cons _ (List.Perm.swap _ _ _))
  · apply forSlots_nodup
    · intro i
      simp [slotReleases]
    · intro i j x hi hj
      simp only [slotReleases, List.mem_cons, List.mem_singleton, List.mem_nil_iff,
        or_false] at hi hj
      rcases hi with rfl | rfl | rfl | rfl <;> simpa using hj

/-- C10, as stated, fails: after the successful sample start-up with two slots,
the destructor does not release the resources in the reverse of the order in
which `init` created them. -/
theorem destructor_not_reverse_of_init :
    (init 2 initOk freshTriangle).1 = true ∧
      releasedAfter 2 initOk freshTriangle ≠ (createdBy 2 initOk freshTriangle).reverse := by
  decide

/-- C10, amended: after a successful `init` the first GPU call of the destructor
is `waitQueueIdle`, and every GPU resource created by `init` is then released
exactly once, in the destructor's own fixed order `releaseOrder` (texture first,
slots in ascending order, queue last), which is not the reverse of the order of
creation. -/
theorem destructor_releases_created (N : Nat) (env : InitOutcome) (s0 : Triangle)
    (h : (init N env s0).1 = true) : Teardown N env s0 := by
  obtain ⟨hr, hc⟩ := init_success N env s0 h
  obtain ⟨hhead, hrel⟩ := destructor_releases N (init N env s0).2.1 hr
  obtain ⟨hperm, hnodup⟩ := slot_resources N
  have hmem : ∀ x ∈ forSlots slotReleases N,
      ∃ i, x = Resource.fence i ∨ x = Resource.semaphore (Semaphore.renderComplete i) ∨
        x = Resource.cmd i ∨ x = Resource.cmdPool i := by
    intro x hx
    obtain ⟨i, _, hxi⟩ := (mem_forSlots slotReleases N x).mp hx
    exact ⟨i, by simpa [slotReleases] using hxi⟩
  have hlast : (createdBy N env s0).getLast? = some Resource.pipeline := by
    rw [hc]
    simp [List.getLast?_cons, List.getLast?_append]
  have hfirst : (releasedAfter N env s0).head?
      = some (Resource.loaded LoadedResource.texture) := by
    unfold releasedAfter
    rw [hrel]
    rfl
  refine ⟨hhead, ?_, ?_, ?_, ?_, hfirst, ?_, hlast, ?_⟩
  · simp [destructor, hr, Call.releases, List.filterMap]
  · unfold releasedAfter
    rw [hrel, hc, List.perm_iff_count]
    intro x
    simp only [List.count_append, List.count_cons, List.count_nil, hperm.count_eq]
    ring
  · unfold releasedAfter
    rw [hrel, List.nodup_append]
    refine ⟨by decide, ?_, ?_⟩
    · rw [List.nodup_append]
      refine ⟨hnodup, by decide, ?_⟩
      intro x hx hx2
      obtain ⟨i, hi⟩ := hmem x hx
      rcases hi with rfl | rfl | rfl | rfl <;> simp at hx2
    · intro x hx1 hx2
      rw [List.mem_append] at hx2
      rcases hx2 with hx2 | hx2
      · obtain ⟨i, hi⟩ := hmem x hx2
        rcases hi with rfl | rfl | rfl | rfl <;> simp at hx1
      · simp only [List.mem_cons, List.mem_singleton, List.mem_nil_iff, or_false] at hx2
        rcases hx2 with rfl | rfl <;> simp at hx1
  · unfold releasedAfter
    rw [hrel]
    rfl
  · unfold releasedAfter
    rw [hrel]
    simp [List.getLast?_cons, List.getLast?_append]
  · intro heq
    have hrev : (releasedAfter N env s0).head? = (createdBy N env s0).getLast? := by
      rw [heq, List.head?_reverse]
    rw [hfirst, hlast] at hrev
    simp at hrev

/-- Witness of the amended C10: the successful sample start-up with two slots. -/
theorem destructor_releases_created_witness :
    (init 2 initOk freshTriangle).1 = true ∧ Teardown 2 initOk freshTriangle :=
  ⟨by decide, destructor_releases_created 2 initOk freshTriangle (by decide)⟩

/-- C11: for every button and action passed to `onMouseButton` (directly or through
`mouseButtonCallback`, whatever the modifier bits): the left mouse button gives the
overlay exactly one `OnButton` call, with `BUTTON_SOUTH`, with `pressed` true if
and only if the action is `GLFW_PRESS`, and with the stored mouse position; any
other button gives the overlay no call and changes no state. -/
theorem onMouseButton_remap (button action mods : Int) (s : Triangle) :
    MouseButtonRemap button action s ∧
      mouseButtonCallback button action mods s = onMouseButton button action s := by
  refine ⟨?_, rfl⟩
  unfold MouseButtonRemap
  by_cases hb : button = GLFW_MOUSE_BUTTON_1
  · rw [if_pos hb]
    by_cases ha : action = GLFW_PRESS
    · exact ⟨true, by simp [onMouseButton, hb, ha], by
        simp [onMouseButton, hb, ha, Call.buttonEvent, List.filterMap], by simp [ha]⟩
    · exact ⟨false, by simp [onMouseButton, hb, ha], by
        simp [onMouseButton, hb, ha, Call.buttonEvent, List.filterMap], by simp [ha]⟩
  · rw [if_neg hb]
    simp [onMouseButton, hb]

end TheForgeSamples
